import Mathlib

/-!
Shallow embedding of the SaaS starter backend (`src/main.py`, `src/schemas.py`).

Documents stored in the Mongo-style document store are modelled as association
lists from field names to a small JSON-like value type `JValue`.  The store's
native identifier type (`ObjectId`) is a distinguished constructor `JValue.oid`,
so that "the native identifier leaks across the system boundary" is a real
proposition about returned payloads.

`database.py` (the Document Gateway: `db`, `create_document`, `get_documents`)
is imported by `main.py` but is not part of the sources; its operations are
modelled from the spec, as are the third-party password hasher (passlib bcrypt)
and token encoder (python-jose).  Every such definition carries a doc comment
starting with `Modelled from the spec:`.  Handlers are translated directly from
`main.py`; wall-clock time (`datetime.utcnow()`) and the bcrypt salt are passed
in as explicit parameters.
-/

/-- A JSON-like value as stored in / returned from the document store.
`oid` is the store's native generated identifier type (Mongo `ObjectId`),
kept distinct from `str` so that stringification of identifiers is visible. -/
inductive JValue where
  | null
  | str (s : String)
  | nat (n : Nat)
  | bool (b : Bool)
  | oid (n : Nat)
  | strList (xs : List String)
  | dict (xs : List (String × String))
deriving DecidableEq, Repr

/-- A stored document: an insertion-ordered mapping from field names to values
(Python dict semantics; keys are unique in every document this system builds). -/
abbrev Doc := List (String × JValue)

/-- First value bound to key `k`, like Python `d.get(k)`. -/
def dlookup (d : Doc) (k : String) : Option JValue :=
  (d.find? (fun kv => kv.1 == k)).map (fun kv => kv.2)

/-- Python `d[k] = v` on a dict: replace the value at an existing key in place,
otherwise append the new binding at the end (insertion order). -/
def dset (d : Doc) (k : String) (v : JValue) : Doc :=
  match d with
  | [] => [(k, v)]
  | kv :: rest => if kv.1 == k then (k, v) :: rest else kv :: dset rest k v

/-- Python `d.pop(k, None)` on a dict: remove the binding for `k` if present. -/
def dpop (d : Doc) (k : String) : Doc :=
  d.filter (fun kv => kv.1 != k)

/-- Python `str(...)` on the values this system passes to `str`:
`str(None) = "None"`, `str(ObjectId(...))` is the identifier's string form. -/
def pyStr (v : JValue) : String :=
  match v with
  | .null => "None"
  | .str s => s
  | .nat n => toString n
  | .bool b => cond b "True" "False"
  | .oid n => oidStr n
  | .strList xs => String.intercalate "," xs
  | .dict xs => String.intercalate "," (xs.map (fun kv => kv.1 ++ ":" ++ kv.2))
where
  /-- String serialization of a store-generated `ObjectId`. -/
  oidStr (n : Nat) : String := "64" ++ toString n

/-- `str(o)` for an optional value, like Python `str(d.get(k))`. -/
def pyStrOpt (o : Option JValue) : String :=
  pyStr (o.getD .null)

/-- Python truthiness of a `find_one` result: `None` and the empty dict are
falsy, every non-empty dict is truthy. -/
def truthy (o : Option Doc) : Bool :=
  match o with
  | none => false
  | some d => !d.isEmpty

/-- `user.get(k, default)` when the caller expects a string value. -/
def getStrD (d : Doc) (k : String) (default : String) : String :=
  match dlookup d k with
  | some (.str s) => s
  | _ => default

/-! ## Credential hasher (passlib `CryptContext(schemes=["bcrypt"])`) -/

/-- The fixed modular-crypt header of a produced bcrypt hash, as a char list. -/
def bcryptHeader : List Char := ['$', '2', 'b', '$', '1', '2', '$']

/-- Modelled from the spec: the salted one-way digest inside a bcrypt hash
(§4.1: randomized-salt one-way hash; the salt is an explicit parameter).
The digest determines and is determined by the (salt, password) pair. -/
def hashCore (salt : Nat) (password : String) : List Char :=
  List.replicate salt 'x' ++ '#' :: password.data

/-- Modelled from the spec: `hash_password` / `pwd_context.hash` (main.py line
66).  Produces a modular-crypt-formatted string: header, salt, `'$'`, digest.
The hasher implementation (passlib bcrypt) is not part of the sources. -/
def hash_password (salt : Nat) (password : String) : String :=
  ⟨bcryptHeader ++ List.replicate salt 's' ++ '$' :: hashCore salt password⟩

/-- Modelled from the spec: parsing a candidate hash string back into its salt
and digest; malformed input yields `none` instead of raising. -/
def parseHash (h : String) : Option (Nat × List Char) :=
  if h.data.take 7 = bcryptHeader then
    match (h.data.drop 7).dropWhile (fun c => c == 's') with
    | '$' :: digest => some (((h.data.drop 7).takeWhile (fun c => c == 's')).length, digest)
    | _ => none
  else none

/-- Modelled from the spec: `verify_password` / `pwd_context.verify` (main.py
line 70).  Re-derives the digest from the hash's own salt and the supplied
plaintext; malformed hash input is a verification failure, never an error
(§4.1: "Never raises on malformed hash input — treat as verification failure"). -/
def verify_password (password hashed : String) : Bool :=
  match parseHash hashed with
  | none => false
  | some (salt, digest) => digest == hashCore salt password

/-! ## Token issuer (`create_access_token`, python-jose `jwt.encode`) -/

/-- `JWT_SECRET = os.getenv("JWT_SECRET", "supersecretkey")` (main.py line 27);
the hardcoded fallback, the value in force when the variable is unset. -/
def JWT_SECRET : String := "supersecretkey"

/-- `JWT_EXPIRES_MIN = 60 * 24 * 7` minutes, i.e. 7 days (main.py line 29). -/
def JWT_EXPIRES_MIN : Nat := 60 * 24 * 7

/-- Serialization of one claim value inside the token payload. -/
def jstr (v : JValue) : String :=
  match v with
  | .null => "null"
  | .str s => "\x22" ++ s ++ "\x22"
  | .nat n => toString n
  | .bool b => cond b "true" "false"
  | .oid n => "oid(" ++ toString n ++ ")"
  | .strList xs => "[" ++ String.intercalate "," xs ++ "]"
  | .dict xs => "(" ++ String.intercalate "," (xs.map (fun kv => kv.1 ++ ":" ++ kv.2)) ++ ")"

/-- Modelled from the spec: the HMAC-SHA256 signature over the payload with the
process-wide symmetric secret (§4.2, §6: "HMAC-SHA256-equivalent").  The real
digest computation lives in python-jose, outside the sources. -/
def hmacSha256 (key msg : String) : String :=
  "hmacsha256(" ++ key ++ "," ++ msg ++ ")"

/-- Modelled from the spec: `jose.jwt.encode(claims, JWT_SECRET, "HS256")` —
the compact encoding `header.payload.signature` of a claims mapping, signed
with the symmetric secret (§4.2). -/
def jwtEncode (claims : List (String × JValue)) : String :=
  let payload := String.intercalate ";" (claims.map (fun kv => kv.1 ++ "=" ++ jstr kv.2))
  "eyJhbGciOiJIUzI1NiJ9." ++ payload ++ "." ++ hmacSha256 JWT_SECRET payload

/-- `create_access_token` (main.py lines 74-79): copy the claims, set the
`exp` claim to now + `JWT_EXPIRES_MIN` minutes (no caller passes
`expires_delta`, so the default lifetime is always used), encode and sign.
Time is in seconds since the epoch. -/
def create_access_token (now : Nat) (data : List (String × JValue)) : String :=
  jwtEncode (dset data "exp" (.nat (now + 60 * JWT_EXPIRES_MIN)))

/-! ## Document store state -/

/-- The three collections of the document store plus the generator for the next
`ObjectId`.  Modelled from the spec (§2, §4.3): `database.py` is not in the
sources; the store groups records into named collections and generates an
opaque identifier for every inserted record. -/
structure Store where
  user : List Doc
  blogpost : List Doc
  contactmessage : List Doc
  nextOid : Nat
deriving DecidableEq, Repr

/-- `collection.find_one(filter)` with an equality filter on one field:
the first document whose field `k` equals `v`. -/
def findOne (docs : List Doc) (k : String) (v : JValue) : Option Doc :=
  docs.find? (fun d => dlookup d k == some v)

/-- `collection.insert_one(doc)`: the store generates an `ObjectId`, adds it to
the document under `_id` and appends the document to the collection.  Returns
the generated identifier and the stored document. -/
def insertOne (next : Nat) (d : Doc) : Nat × Doc :=
  (next, d ++ [("_id", .oid next)])

/-- `collection.insert_many(docs)`: insert each document in order, generating
consecutive identifiers.  Returns the next free identifier and stored docs. -/
def insertDocs (next : Nat) (docs : List Doc) : Nat × List Doc :=
  match docs with
  | [] => (next, [])
  | d :: rest =>
      let (n, ds) := insertDocs (next + 1) rest
      (n, (d ++ [("_id", .oid next)]) :: ds)

/-- Modelled from the spec: `get_documents(collection, filter, limit)` from the
missing `database.py` — `find_many` in §4.3: the matching records as an ordered
sequence of length at most `limit`; here with the one filter `main.py` uses,
`published == true` on the blogpost collection. -/
def get_documents (docs : List Doc) (limit : Nat) : List Doc :=
  (docs.filter (fun d => dlookup d "published" == some (.bool true))).take limit

/-! ## Request / response shapes -/

/-- `RegisterRequest` (main.py lines 33-36): exactly name, email, password.
Email-format validation is the framework's and out of scope (§1). -/
structure RegisterRequest where
  name : String
  email : String
  password : String
deriving DecidableEq, Repr

/-- `LoginRequest` (main.py lines 39-41). -/
structure LoginRequest where
  email : String
  password : String
deriving DecidableEq, Repr

/-- `ContactRequest` (main.py lines 44-49). -/
structure ContactRequest where
  name : String
  email : String
  subject : Option String
  message : String
  meta : Option (List (String × String))
deriving DecidableEq, Repr

/-- A raised `HTTPException(status_code, detail)`. -/
structure HTTPError where
  status : Nat
  detail : String
deriving DecidableEq, Repr

/-- The `{token, user}` success body of register and login. -/
structure AuthResponse where
  token : String
  user : Doc
deriving DecidableEq, Repr

/-- The `{status, id}` success body of contact. -/
structure ContactResponse where
  status : String
  id : String
deriving DecidableEq, Repr

/-- `Optional[str]` field as a stored value. -/
def optStr (o : Option String) : JValue :=
  match o with
  | none => .null
  | some s => .str s

/-- `Optional[dict]` field as a stored value. -/
def optDict (o : Option (List (String × String))) : JValue :=
  match o with
  | none => .null
  | some xs => .dict xs

/-! ## Handlers (main.py lines 115-227)

Each handler takes the module-level `db` (`none` when the store is
uninitialized), the current time and any randomness, and returns the response
or raised error together with the `db` it leaves behind. -/

/-- The `user_doc` dict that `register` builds (main.py lines 124-133). -/
def regUserDoc (now salt : Nat) (payload : RegisterRequest) : Doc :=
  [("name", .str payload.name),
   ("email", .str payload.email),
   ("password_hash", .str (hash_password salt payload.password)),
   ("avatar_url", .null),
   ("plan", .str "free"),
   ("is_active", .bool true),
   ("created_at", .nat now),
   ("updated_at", .nat now)]

/-- `register` (main.py lines 115-138). -/
def register (db : Option Store) (now salt : Nat) (payload : RegisterRequest) :
    Except HTTPError AuthResponse × Option Store :=
  match db with
  | none => (.error ⟨500, "Database not available"⟩, none)
  | some s =>
      let existing := findOne s.user "email" (.str payload.email)
      if truthy existing then
        (.error ⟨400, "Email already registered"⟩, some s)
      else
        let user_doc := regUserDoc now salt payload
        let (newId, stored) := insertOne s.nextOid user_doc
        let s' : Store :=
          { s with user := s.user ++ [stored], nextOid := s.nextOid + 1 }
        let token := create_access_token now
          [("sub", .str (pyStr (.oid newId))), ("email", .str payload.email)]
        let respUser := dset (dpop stored "password_hash") "_id" (.str (pyStr (.oid newId)))
        (.ok ⟨token, respUser⟩, some s')

/-- `login` (main.py lines 141-155).  `user["_id"]` is read with a `None`
default: every document a Mongo store returns carries the `_id` the store
generated at insertion, so the lookup never actually misses. -/
def login (db : Option Store) (now : Nat) (payload : LoginRequest) :
    Except HTTPError AuthResponse × Option Store :=
  match db with
  | none => (.error ⟨500, "Database not available"⟩, none)
  | some s =>
      let found := findOne s.user "email" (.str payload.email)
      if !truthy found then
        (.error ⟨400, "Invalid credentials"⟩, some s)
      else
        let user := found.getD []
        if !verify_password payload.password (getStrD user "password_hash" "") then
          (.error ⟨400, "Invalid credentials"⟩, some s)
        else
          let token := create_access_token now
            [("sub", .str (pyStrOpt (dlookup user "_id"))),
             ("email", (dlookup user "email").getD .null)]
          let user1 := dset user "_id" (.str (pyStrOpt (dlookup user "_id")))
          let user2 := dpop user1 "password_hash"
          (.ok ⟨token, user2⟩, some s)

/-- The three fixed demo posts seeded by `list_blogs` (main.py lines 167-207). -/
def seedPosts (now : Nat) : List Doc :=
  [[("title", .str "Designing Trust in Fintech"),
    ("slug", .str "designing-trust-in-fintech"),
    ("excerpt", .str "How micro-interactions and clear copy build confidence in digital banking."),
    ("content", .str "Long form content..."),
    ("author", .str "Team"),
    ("tags", .strList ["design", "fintech"]),
    ("published", .bool true),
    ("published_at", .nat now),
    ("cover_image", .null),
    ("created_at", .nat now),
    ("updated_at", .nat now)],
   [("title", .str "Pricing Psychology 101"),
    ("slug", .str "pricing-psychology-101"),
    ("excerpt", .str "Make tiers that guide choices without pressure."),
    ("content", .str "Long form content..."),
    ("author", .str "Team"),
    ("tags", .strList ["pricing", "growth"]),
    ("published", .bool true),
    ("published_at", .nat now),
    ("cover_image", .null),
    ("created_at", .nat now),
    ("updated_at", .nat now)],
   [("title", .str "Your First 100 Users"),
    ("slug", .str "your-first-100-users"),
    ("excerpt", .str "Practical channels to get traction for your SaaS."),
    ("content", .str "Long form content..."),
    ("author", .str "Team"),
    ("tags", .strList ["growth"]),
    ("published", .bool true),
    ("published_at", .nat now),
    ("cover_image", .null),
    ("created_at", .nat now),
    ("updated_at", .nat now)]]

/-- `list_blogs` (main.py lines 159-215): seed the three demo posts when the
collection is empty, then return the published posts up to `limit`, each with
its identifier stringified. -/
def list_blogs (db : Option Store) (now : Nat) (limit : Nat) :
    Except HTTPError (List Doc) × Option Store :=
  match db with
  | none => (.error ⟨500, "Database not available"⟩, none)
  | some s =>
      let count := s.blogpost.length
      let s1 :=
        if count == 0 then
          let (n, ds) := insertDocs s.nextOid (seedPosts now)
          { s with blogpost := s.blogpost ++ ds, nextOid := n }
        else s
      let docs := get_documents s1.blogpost limit
      let items := docs.map (fun d => dset d "_id" (.str (pyStrOpt (dlookup d "_id"))))
      (.ok items, some s1)

/-- `contact` (main.py lines 219-227).  `create_document` lives in the missing
`database.py`; modelled from the spec (§4.3 `insert_one` returns the generated
identifier, §8: contact "returns a generated identifier string"). -/
def contact (db : Option Store) (now : Nat) (payload : ContactRequest) :
    Except HTTPError ContactResponse × Option Store :=
  match db with
  | none => (.error ⟨500, "Database not available"⟩, none)
  | some s =>
      let doc : Doc :=
        [("name", .str payload.name),
         ("email", .str payload.email),
         ("subject", optStr payload.subject),
         ("message", .str payload.message),
         ("meta", optDict payload.meta),
         ("created_at", .nat now),
         ("updated_at", .nat now)]
      let (newId, stored) := insertOne s.nextOid doc
      let s' : Store :=
        { s with contactmessage := s.contactmessage ++ [stored],
                 nextOid := s.nextOid + 1 }
      (.ok ⟨"ok", pyStr (.oid newId)⟩, some s')

/-! ## Helper lemmas on documents -/

theorem dlookup_cons_self (k : String) (v : JValue) (d : Doc) :
    dlookup ((k, v) :: d) k = some v := by
  unfold dlookup
  rw [List.find?_cons_of_pos _ (by simp)]
  rfl

theorem dlookup_cons_ne {k1 k : String} (v : JValue) (d : Doc) (h : k1 ≠ k) :
    dlookup ((k1, v) :: d) k = dlookup d k := by
  unfold dlookup
  rw [List.find?_cons_of_neg _ (by simp [h])]

theorem dlookup_dset_self (d : Doc) (k : String) (v : JValue) :
    dlookup (dset d k v) k = some v := by
  induction d with
  | nil => simp [dset, dlookup_cons_self]
  | cons kv rest ih =>
      cases kv with
      | mk ka va =>
        by_cases h : ka = k
        · simp only [dset]
          rw [if_pos (by simp [h])]
          exact dlookup_cons_self k v rest
        · simp only [dset]
          rw [if_neg (by simp [h])]
          rw [dlookup_cons_ne _ _ h]
          exact ih

theorem dlookup_dset_ne {k1 k : String} (d : Doc) (v : JValue) (h : k1 ≠ k) :
    dlookup (dset d k1 v) k = dlookup d k := by
  induction d with
  | nil => rw [show dset [] k1 v = [(k1, v)] from rfl, dlookup_cons_ne _ _ h]
  | cons kv rest ih =>
      cases kv with
      | mk ka va =>
        by_cases h2 : ka = k1
        · simp only [dset]
          rw [if_pos (by simp [h2])]
          rw [dlookup_cons_ne _ _ h, dlookup_cons_ne _ _ (h2 ▸ h)]
        · simp only [dset]
          rw [if_neg (by simp [h2])]
          by_cases h3 : ka = k
          · subst h3
            rw [dlookup_cons_self, dlookup_cons_self]
          · rw [dlookup_cons_ne _ _ h3, dlookup_cons_ne _ _ h3]
            exact ih

theorem dlookup_dpop_self (d : Doc) (k : String) :
    dlookup (dpop d k) k = none := by
  induction d with
  | nil => rfl
  | cons kv rest ih =>
      cases kv with
      | mk ka va =>
        by_cases h : ka = k
        · simpa [dpop, h] using ih
        · simp only [dpop, List.filter]
          rw [show ((ka, va).1 != k) = true by simp [h]]
          rw [dlookup_cons_ne _ _ h]
          exact ih

theorem dlookup_dpop_ne {k1 k : String} (d : Doc) (h : k1 ≠ k) :
    dlookup (dpop d k1) k = dlookup d k := by
  induction d with
  | nil => rfl
  | cons kv rest ih =>
      cases kv with
      | mk ka va =>
        by_cases h2 : ka = k1
        · simp only [dpop, List.filter]
          rw [show ((ka, va).1 != k1) = false by simp [h2]]
          rw [dlookup_cons_ne _ _ (h2 ▸ h)]
          exact ih
        · simp only [dpop, List.filter]
          rw [show ((ka, va).1 != k1) = true by simp [h2]]
          by_cases h3 : ka = k
          · subst h3
            rw [dlookup_cons_self, dlookup_cons_self]
          · rw [dlookup_cons_ne _ _ h3, dlookup_cons_ne _ _ h3]
            exact ih

/-! ## Helper lemmas on the store -/

theorem findOne_eq_none {docs : List Doc} {k : String} {v : JValue}
    (H : ∀ d ∈ docs, dlookup d k ≠ some v) : findOne docs k v = none := by
  unfold findOne
  exact List.find?_eq_none.mpr (fun d hd => by simp [H d hd])

theorem findOne_append_none {l₁ : List Doc} (l₂ : List Doc) {k : String} {v : JValue}
    (h : findOne l₁ k v = none) : findOne (l₁ ++ l₂) k v = findOne l₂ k v := by
  unfold findOne at *
  rw [List.find?_append, h, Option.none_or]

theorem findOne_cons_self {d : Doc} (docs : List Doc) {k : String} {v : JValue}
    (h : dlookup d k = some v) : findOne (d :: docs) k v = some d := by
  unfold findOne
  rw [List.find?_cons_of_pos _ (by simp [h])]

theorem findOne_nonempty {docs : List Doc} {k : String} {v : JValue} {d : Doc}
    (h : findOne docs k v = some d) : d.isEmpty = false := by
  have hp := List.find?_some h
  cases d with
  | nil => simp [dlookup] at hp
  | cons kv rest => rfl

/-! ## Helper lemmas on the hasher -/

theorem takeWhile_salt (n : Nat) (l : List Char) :
    (List.replicate n 's' ++ '$' :: l).takeWhile (fun c => c == 's') = List.replicate n 's' := by
  induction n with
  | zero => simp [List.takeWhile_cons]
  | succ m ih => simp [List.replicate_succ, List.takeWhile_cons, ih]

theorem dropWhile_salt (n : Nat) (l : List Char) :
    (List.replicate n 's' ++ '$' :: l).dropWhile (fun c => c == 's') = '$' :: l := by
  induction n with
  | zero => simp [List.dropWhile_cons]
  | succ m ih => simp [List.replicate_succ, List.dropWhile_cons, ih]

theorem parseHash_hash (salt : Nat) (p : String) :
    parseHash (hash_password salt p) = some (salt, hashCore salt p) := by
  have hdata : (hash_password salt p).data
      = bcryptHeader ++ (List.replicate salt 's' ++ '$' :: hashCore salt p) := by
    simp [hash_password]
  unfold parseHash
  rw [hdata]
  rw [List.take_left' (by rfl), List.drop_left' (by rfl)]
  rw [if_pos rfl]
  rw [takeWhile_salt, dropWhile_salt]
  simp

theorem verify_hash (salt : Nat) (p : String) :
    verify_password p (hash_password salt p) = true := by
  simp [verify_password, parseHash_hash]

theorem hashCore_inj {s : Nat} {p q : String} (h : hashCore s p = hashCore s q) : p = q := by
  unfold hashCore at h
  have h2 := List.append_cancel_left h
  exact String.ext (by injection h2)

theorem verify_hash_ne {p q : String} (salt : Nat) (h : p ≠ q) :
    verify_password p (hash_password salt q) = false := by
  simp only [verify_password, parseHash_hash]
  simp only [beq_eq_false_iff_ne, ne_eq]
  intro contra
  exact h (hashCore_inj contra).symm

theorem verify_malformed {hstr : String} (p : String) (h : parseHash hstr = none) :
    verify_password p hstr = false := by
  simp [verify_password, h]

/-! ## Helper lemmas on the token issuer -/

theorem jwtEncode_ne_empty (c : List (String × JValue)) : jwtEncode c ≠ "" := by
  intro h
  have h2 := congrArg String.data h
  rw [show jwtEncode c
      = "eyJhbGciOiJIUzI1NiJ9." ++ (String.intercalate ";" (c.map (fun kv => kv.1 ++ "=" ++ jstr kv.2)) ++ ("." ++ hmacSha256 JWT_SECRET (String.intercalate ";" (c.map (fun kv => kv.1 ++ "=" ++ jstr kv.2))))) from by
    simp [jwtEncode, String.append_assoc]] at h2
  rw [String.data_append] at h2
  have : ("eyJhbGciOiJIUzI1NiJ9." : String).data = [] := List.append_eq_nil.mp h2 |>.1
  simp [String.data] at this

/-! ## Handler branch lemmas -/

theorem register_conflict {s : Store} (now salt : Nat) (p : RegisterRequest)
    (h : ∃ d ∈ s.user, dlookup d "email" = some (.str p.email)) :
    register (some s) now salt p = (.error ⟨400, "Email already registered"⟩, some s) := by
  obtain ⟨d, hd, hdl⟩ := h
  have hsome : (findOne s.user "email" (.str p.email)).isSome := by
    unfold findOne
    rw [List.find?_isSome]
    exact ⟨d, hd, by simp [hdl]⟩
  obtain ⟨d0, hd0⟩ := Option.isSome_iff_exists.mp hsome
  have htr : truthy (findOne s.user "email" (.str p.email)) = true := by
    rw [hd0]
    simp [truthy, findOne_nonempty hd0]
  simp [register, htr]

theorem register_fresh {s : Store} (now salt : Nat) (p : RegisterRequest)
    (h : ∀ d ∈ s.user, dlookup d "email" ≠ some (.str p.email)) :
    register (some s) now salt p =
      (.ok ⟨create_access_token now [("sub", .str (pyStr (.oid s.nextOid))), ("email", .str p.email)],
            dset (dpop (regUserDoc now salt p ++ [("_id", .oid s.nextOid)]) "password_hash") "_id"
              (.str (pyStr (.oid s.nextOid)))⟩,
       some { s with user := s.user ++ [regUserDoc now salt p ++ [("_id", .oid s.nextOid)]],
                     nextOid := s.nextOid + 1 }) := by
  have hnone := findOne_eq_none h
  simp [register, hnone, truthy, insertOne]

theorem login_no_user {s : Store} (now : Nat) (p : LoginRequest)
    (h : truthy (findOne s.user "email" (.str p.email)) = false) :
    login (some s) now p = (.error ⟨400, "Invalid credentials"⟩, some s) := by
  simp [login, h]

theorem login_bad_password {s : Store} {d : Doc} (now : Nat) (p : LoginRequest)
    (hf : findOne s.user "email" (.str p.email) = some d)
    (hv : verify_password p.password (getStrD d "password_hash" "") = false) :
    login (some s) now p = (.error ⟨400, "Invalid credentials"⟩, some s) := by
  have hne := findOne_nonempty hf
  simp [login, hf, truthy, hne, hv]

theorem login_success {s : Store} {d : Doc} (now : Nat) (p : LoginRequest)
    (hf : findOne s.user "email" (.str p.email) = some d)
    (hv : verify_password p.password (getStrD d "password_hash" "") = true) :
    login (some s) now p =
      (.ok ⟨create_access_token now
              [("sub", .str (pyStrOpt (dlookup d "_id"))), ("email", (dlookup d "email").getD .null)],
            dpop (dset d "_id" (.str (pyStrOpt (dlookup d "_id")))) "password_hash"⟩,
       some s) := by
  have hne := findOne_nonempty hf
  simp [login, hf, truthy, hne, hv]

/-! ## Lookups in the document register stores -/

theorem dlookup_regStored_email (now salt i : Nat) (p : RegisterRequest) :
    dlookup (regUserDoc now salt p ++ [("_id", .oid i)]) "email" = some (.str p.email) := by
  simp [regUserDoc, dlookup, List.find?]

theorem dlookup_regStored_hash (now salt i : Nat) (p : RegisterRequest) :
    dlookup (regUserDoc now salt p ++ [("_id", .oid i)]) "password_hash"
      = some (.str (hash_password salt p.password)) := by
  simp [regUserDoc, dlookup, List.find?]

theorem dlookup_regStored_plan (now salt i : Nat) (p : RegisterRequest) :
    dlookup (regUserDoc now salt p ++ [("_id", .oid i)]) "plan" = some (.str "free") := by
  simp [regUserDoc, dlookup, List.find?]

theorem dlookup_regStored_active (now salt i : Nat) (p : RegisterRequest) :
    dlookup (regUserDoc now salt p ++ [("_id", .oid i)]) "is_active" = some (.bool true) := by
  simp [regUserDoc, dlookup, List.find?]

theorem dlookup_regStored_avatar (now salt i : Nat) (p : RegisterRequest) :
    dlookup (regUserDoc now salt p ++ [("_id", .oid i)]) "avatar_url" = some .null := by
  simp [regUserDoc, dlookup, List.find?]

theorem dlookup_regStored_id (now salt i : Nat) (p : RegisterRequest) :
    dlookup (regUserDoc now salt p ++ [("_id", .oid i)]) "_id" = some (.oid i) := by
  simp [regUserDoc, dlookup, List.find?]

theorem insertDocs_length (n : Nat) (docs : List Doc) :
    (insertDocs n docs).2.length = docs.length := by
  induction docs generalizing n with
  | nil => rfl
  | cons d rest ih => simp [insertDocs, ih]

theorem insertDocs_mem {n : Nat} {docs : List Doc} {d' : Doc} (h : d' ∈ (insertDocs n docs).2) :
    ∃ d ∈ docs, ∃ i, d' = d ++ [("_id", JValue.oid i)] := by
  induction docs generalizing n with
  | nil => simp [insertDocs] at h
  | cons d rest ih =>
      simp only [insertDocs, List.mem_cons] at h
      rcases h with h | h
      · exact ⟨d, by simp, n, h⟩
      · obtain ⟨d0, hd0, i, hi⟩ := ih h
        exact ⟨d0, by simp [hd0], i, hi⟩

theorem dlookup_append_of_some {d : Doc} {k : String} {v : JValue} (d2 : Doc)
    (h : dlookup d k = some v) : dlookup (d ++ d2) k = some v := by
  unfold dlookup at *
  rw [List.find?_append]
  cases hf : List.find? (fun kv => kv.1 == k) d with
  | none => rw [hf] at h; simp at h
  | some kv => rw [hf] at h; simpa using h

theorem seedPosts_published (now : Nat) :
    ∀ d ∈ seedPosts now, dlookup d "published" = some (.bool true) := by
  intro d hd
  simp only [seedPosts, List.mem_cons, List.not_mem_nil, or_false] at hd
  rcases hd with h | h | h <;> subst h <;> simp [dlookup, List.find?]

theorem seeded_published {now n : Nat} :
    ∀ d ∈ (insertDocs n (seedPosts now)).2, dlookup d "published" = some (.bool true) := by
  intro d' hd'
  obtain ⟨d, hd, i, hi⟩ := insertDocs_mem hd'
  subst hi
  exact dlookup_append_of_some _ (seedPosts_published now d hd)


/-! ## Shape of successful list_blogs and contact responses -/

theorem list_blogs_ok {st : Store} {n l : Nat} {items : List Doc} {db2 : Option Store}
    (h : list_blogs (some st) n l = (.ok items, db2)) :
    ∃ bl : List Doc, items = (get_documents bl l).map
      (fun d => dset d "_id" (.str (pyStrOpt (dlookup d "_id")))) := by
  simp only [list_blogs] at h
  have h1 := congrArg Prod.fst h
  simp only at h1
  exact ⟨_, (Except.ok.inj h1).symm⟩

theorem list_blogs_length_le {st : Store} {n l : Nat} {items : List Doc} {db2 : Option Store}
    (h : list_blogs (some st) n l = (.ok items, db2)) : items.length ≤ l := by
  obtain ⟨bl, hbl⟩ := list_blogs_ok h
  subst hbl
  rw [List.length_map]
  unfold get_documents
  exact List.length_take_le _ _

theorem list_blogs_id_str {st : Store} {n l : Nat} {items : List Doc} {db2 : Option Store}
    (h : list_blogs (some st) n l = (.ok items, db2)) :
    ∀ it ∈ items, ∃ idStr, dlookup it "_id" = some (.str idStr) := by
  obtain ⟨bl, hbl⟩ := list_blogs_ok h
  subst hbl
  intro it hit
  obtain ⟨d, _, hmap⟩ := List.mem_map.mp hit
  subst hmap
  exact ⟨_, dlookup_dset_self _ _ _⟩

theorem contact_ok {st : Store} {n : Nat} {pC : ContactRequest} {r : ContactResponse}
    {db2 : Option Store} (h : contact (some st) n pC = (.ok r, db2)) :
    r = ⟨"ok", pyStr (.oid st.nextOid)⟩ := by
  simp only [contact, insertOne] at h
  have h1 := congrArg Prod.fst h
  simp only at h1
  exact (Except.ok.inj h1).symm

/-! ## Concrete states used by the witnesses -/

/-- A store with all three collections empty. -/
def emptyStore : Store := ⟨[], [], [], 0⟩

/-- A registered user record as the store holds it. -/
def bobDoc : Doc :=
  [("email", .str "bob@example.com"),
   ("password_hash", .str (hash_password 1 "hunter2")),
   ("_id", .oid 0)]

/-- A store holding exactly the user `bobDoc`. -/
def bobStore : Store := ⟨[bobDoc], [], [], 1⟩

/-! ## The claims -/

/-- C1: for every valid registration payload whose email matches no stored
User, calling `register` and then `login` with the same email and password
both succeed, both return a non-empty token, and both return a user payload
that contains no `password_hash` field. -/
theorem C1_register_then_login (s : Store) (now1 now2 salt : Nat) (name email pw : String)
    (hfresh : ∀ d ∈ s.user, dlookup d "email" ≠ some (.str email)) :
    ∃ rR sR rL sL,
      register (some s) now1 salt ⟨name, email, pw⟩ = (.ok rR, some sR) ∧
      login (some sR) now2 ⟨email, pw⟩ = (.ok rL, some sL) ∧
      rR.token ≠ "" ∧ rL.token ≠ "" ∧
      dlookup rR.user "password_hash" = none ∧
      dlookup rL.user "password_hash" = none := by
  have hreg := register_fresh now1 salt ⟨name, email, pw⟩ hfresh
  have hf : findOne (s.user ++ [regUserDoc now1 salt ⟨name, email, pw⟩ ++ [("_id", .oid s.nextOid)]])
      "email" (.str email)
      = some (regUserDoc now1 salt ⟨name, email, pw⟩ ++ [("_id", .oid s.nextOid)]) := by
    rw [findOne_append_none _ (findOne_eq_none hfresh)]
    exact findOne_cons_self _ (dlookup_regStored_email now1 salt s.nextOid ⟨name, email, pw⟩)
  have hv : verify_password pw
      (getStrD (regUserDoc now1 salt ⟨name, email, pw⟩ ++ [("_id", .oid s.nextOid)])
        "password_hash" "") = true := by
    rw [getStrD, dlookup_regStored_hash]
    exact verify_hash salt pw
  have hlog := login_success (s := { s with
      user := s.user ++ [regUserDoc now1 salt ⟨name, email, pw⟩ ++ [("_id", .oid s.nextOid)]],
      nextOid := s.nextOid + 1 }) now2 ⟨email, pw⟩ hf hv
  refine ⟨_, _, _, _, hreg, hlog, ?_, ?_, ?_, ?_⟩
  · rw [create_access_token]
    exact jwtEncode_ne_empty _
  · rw [create_access_token]
    exact jwtEncode_ne_empty _
  · rw [dlookup_dset_ne _ _ (by decide), dlookup_dpop_self]
  · rw [dlookup_dpop_self]

theorem C1_witness :
    (∀ d ∈ emptyStore.user, dlookup d "email" ≠ some (.str "ana@example.com")) ∧
    (∃ rR sR rL sL,
      register (some emptyStore) 100 5 ⟨"Ana", "ana@example.com", "pw123"⟩ = (.ok rR, some sR) ∧
      login (some sR) 200 ⟨"ana@example.com", "pw123"⟩ = (.ok rL, some sL) ∧
      rR.token ≠ "" ∧ rL.token ≠ "" ∧
      dlookup rR.user "password_hash" = none ∧
      dlookup rL.user "password_hash" = none) :=
  ⟨by simp [emptyStore],
   C1_register_then_login emptyStore 100 200 5 "Ana" "ana@example.com" "pw123"
     (by simp [emptyStore])⟩

/-- C2: when a User with the given email already exists, `register` with that
email fails with HTTP 400 "Email already registered" and leaves the user
collection unchanged. -/
theorem C2_duplicate_email_conflict (s : Store) (now salt : Nat) (p : RegisterRequest)
    (h : ∃ d ∈ s.user, dlookup d "email" = some (.str p.email)) :
    register (some s) now salt p = (.error ⟨400, "Email already registered"⟩, some s) ∧
    ((register (some s) now salt p).2.map Store.user) = some s.user := by
  have hc := register_conflict now salt p h
  exact ⟨hc, by rw [hc]; rfl⟩

theorem C2_witness :
    (∃ d ∈ bobStore.user, dlookup d "email" = some (.str "bob@example.com")) ∧
    (register (some bobStore) 100 5 ⟨"Bob", "bob@example.com", "other"⟩
        = (.error ⟨400, "Email already registered"⟩, some bobStore) ∧
      ((register (some bobStore) 100 5 ⟨"Bob", "bob@example.com", "other"⟩).2.map Store.user)
        = some bobStore.user) :=
  ⟨⟨bobDoc, by simp [bobStore], by simp [bobDoc, dlookup, List.find?]⟩,
   C2_duplicate_email_conflict bobStore 100 5 ⟨"Bob", "bob@example.com", "other"⟩
     ⟨bobDoc, by simp [bobStore], by simp [bobDoc, dlookup, List.find?]⟩⟩

/-- C3: a failing `login` whose email matches no stored User and a failing
`login` whose email matches a User but whose password fails hash verification
produce the identical error status and error message. -/
theorem C3_login_enumeration_resistance (s1 s2 : Store) (now1 now2 : Nat)
    (p1 p2 : LoginRequest) (d : Doc)
    (h1 : truthy (findOne s1.user "email" (.str p1.email)) = false)
    (h2 : findOne s2.user "email" (.str p2.email) = some d)
    (h3 : verify_password p2.password (getStrD d "password_hash" "") = false) :
    ∃ err : HTTPError,
      (login (some s1) now1 p1).1 = .error err ∧
      (login (some s2) now2 p2).1 = .error err ∧
      err.status = 400 ∧ err.detail = "Invalid credentials" := by
  refine ⟨⟨400, "Invalid credentials"⟩, ?_, ?_, rfl, rfl⟩
  · rw [login_no_user now1 p1 h1]
  · rw [login_bad_password now2 p2 h2 h3]

theorem C3_witness :
    truthy (findOne emptyStore.user "email" (.str "ghost@example.com")) = false ∧
    findOne bobStore.user "email" (.str "bob@example.com") = some bobDoc ∧
    verify_password "wrong" (getStrD bobDoc "password_hash" "") = false ∧
    (∃ err : HTTPError,
      (login (some emptyStore) 100 ⟨"ghost@example.com", "any"⟩).1 = .error err ∧
      (login (some bobStore) 100 ⟨"bob@example.com", "wrong"⟩).1 = .error err ∧
      err.status = 400 ∧ err.detail = "Invalid credentials") :=
  ⟨by decide, by decide, by decide,
   C3_login_enumeration_resistance emptyStore bobStore 100 100
     ⟨"ghost@example.com", "any"⟩ ⟨"bob@example.com", "wrong"⟩ bobDoc
     (by decide) (by decide) (by decide)⟩

/-- C4: `verify_password` is total, and on a hash string that does not parse
as a well-formed hash it returns `false` (verification failure) rather than
raising. -/
theorem C4_verify_malformed_false (p hstr : String) (h : parseHash hstr = none) :
    verify_password p hstr = false :=
  verify_malformed p h

theorem C4_witness :
    parseHash "not-a-hash" = none ∧ parseHash "" = none ∧
    verify_password "pw" "not-a-hash" = false ∧ verify_password "pw" "" = false :=
  ⟨by decide, by decide,
   C4_verify_malformed_false "pw" "not-a-hash" (by decide),
   C4_verify_malformed_false "pw" "" (by decide)⟩

/-- C5: with the store uninitialized (`db is None`), each of `register`,
`login`, `list_blogs` and `contact` fails with status 500 "Database not
available" as a typed error (not a crash) and performs no write at all. -/
theorem C5_store_uninitialized (now salt limit : Nat)
    (pR : RegisterRequest) (pL : LoginRequest) (pC : ContactRequest) :
    register none now salt pR = (.error ⟨500, "Database not available"⟩, none) ∧
    login none now pL = (.error ⟨500, "Database not available"⟩, none) ∧
    list_blogs none now limit = (.error ⟨500, "Database not available"⟩, none) ∧
    contact none now pC = (.error ⟨500, "Database not available"⟩, none) :=
  ⟨rfl, rfl, rfl, rfl⟩

/-- C6: in a single-threaded execution, `list_blogs` on an empty BlogPost
collection inserts exactly the three fixed demo records (all published) and
returns exactly 3 items; a subsequent call returns the same 3 items and
inserts nothing further; every returned item is published; and on any store
the result length is at most `limit`. -/
theorem C6_list_blogs_seed_idempotent (s : Store) (now1 now2 limit : Nat)
    (hempty : s.blogpost = []) (hlim : 3 ≤ limit) :
    ∃ items s1,
      list_blogs (some s) now1 limit = (.ok items, some s1) ∧
      s1.blogpost = (insertDocs s.nextOid (seedPosts now1)).2 ∧
      s1.blogpost.length = 3 ∧
      (∀ d ∈ s1.blogpost, dlookup d "published" = some (.bool true)) ∧
      items.length = 3 ∧
      (∀ it ∈ items, dlookup it "published" = some (.bool true)) ∧
      list_blogs (some s1) now2 limit = (.ok items, some s1) ∧
      (∀ (st : Store) (n3 l : Nat) (items2 : List Doc) (db2 : Option Store),
        list_blogs (some st) n3 l = (.ok items2, db2) → items2.length ≤ l) := by
  have hpub : ∀ d ∈ (insertDocs s.nextOid (seedPosts now1)).2,
      dlookup d "published" = some (.bool true) := seeded_published
  have hlen : (insertDocs s.nextOid (seedPosts now1)).2.length = 3 := insertDocs_length _ _
  have hfil : (insertDocs s.nextOid (seedPosts now1)).2.filter
      (fun d => dlookup d "published" == some (.bool true))
      = (insertDocs s.nextOid (seedPosts now1)).2 :=
    List.filter_eq_self.mpr (fun d hd => by simp [hpub d hd])
  have hget : get_documents (insertDocs s.nextOid (seedPosts now1)).2 limit
      = (insertDocs s.nextOid (seedPosts now1)).2 := by
    unfold get_documents
    rw [hfil, List.take_of_length_le (by rw [hlen]; exact hlim)]
  refine ⟨((insertDocs s.nextOid (seedPosts now1)).2).map
      (fun d => dset d "_id" (.str (pyStrOpt (dlookup d "_id")))),
    { s with blogpost := (insertDocs s.nextOid (seedPosts now1)).2,
             nextOid := (insertDocs s.nextOid (seedPosts now1)).1 },
    ?_, rfl, hlen, hpub, ?_, ?_, ?_, ?_⟩
  · simp only [list_blogs, hempty]
    rw [if_pos (by rfl)]
    simp only [List.nil_append, hget]
  · simp [hlen]
  · intro it hit
    obtain ⟨d, hd, hmap⟩ := List.mem_map.mp hit
    subst hmap
    rw [dlookup_dset_ne _ _ (by decide)]
    exact hpub d hd
  · simp only [list_blogs]
    rw [if_neg (by simp [hlen])]
    simp only [hget]
  · intro st n3 l items2 db2 h
    exact list_blogs_length_le h

theorem C6_witness :
    emptyStore.blogpost = [] ∧ 3 ≤ 6 ∧
    (∃ items s1,
      list_blogs (some emptyStore) 100 6 = (.ok items, some s1) ∧
      s1.blogpost = (insertDocs emptyStore.nextOid (seedPosts 100)).2 ∧
      s1.blogpost.length = 3 ∧
      (∀ d ∈ s1.blogpost, dlookup d "published" = some (.bool true)) ∧
      items.length = 3 ∧
      (∀ it ∈ items, dlookup it "published" = some (.bool true)) ∧
      list_blogs (some s1) 200 6 = (.ok items, some s1) ∧
      (∀ (st : Store) (n3 l : Nat) (items2 : List Doc) (db2 : Option Store),
        list_blogs (some st) n3 l = (.ok items2, db2) → items2.length ≤ l)) :=
  ⟨rfl, by decide, C6_list_blogs_seed_idempotent emptyStore 100 200 6 rfl (by decide)⟩

/-- C7: tokens issued by `register` and `login` are the signed compact encoding
of a claims mapping with exactly the fields `sub` (the stringified user
identifier), `email` and `exp`, where `exp` is the issuance time plus the
7-day default lifetime (`60 * JWT_EXPIRES_MIN` seconds = 7 days). -/
theorem C7_token_claims (s s2 : Store) (now salt : Nat) (pR : RegisterRequest)
    (pL : LoginRequest) (d : Doc) (m : Nat)
    (hfresh : ∀ d0 ∈ s.user, dlookup d0 "email" ≠ some (.str pR.email))
    (hf : findOne s2.user "email" (.str pL.email) = some d)
    (hv : verify_password pL.password (getStrD d "password_hash" "") = true)
    (hid : dlookup d "_id" = some (.oid m))
    (hem : dlookup d "email" = some (.str pL.email)) :
    ∃ rR sR rL sL,
      register (some s) now salt pR = (.ok rR, some sR) ∧
      login (some s2) now pL = (.ok rL, some sL) ∧
      rR.token = jwtEncode
        [("sub", .str (pyStr (.oid s.nextOid))), ("email", .str pR.email),
         ("exp", .nat (now + 7 * 24 * 60 * 60))] ∧
      rL.token = jwtEncode
        [("sub", .str (pyStr (.oid m))), ("email", .str pL.email),
         ("exp", .nat (now + 7 * 24 * 60 * 60))] ∧
      ([("sub", JValue.str (pyStr (.oid s.nextOid))), ("email", .str pR.email),
        ("exp", .nat (now + 7 * 24 * 60 * 60))].map Prod.fst) = ["sub", "email", "exp"] ∧
      60 * JWT_EXPIRES_MIN = 7 * 24 * 60 * 60 := by
  refine ⟨_, _, _, _, register_fresh now salt pR hfresh, login_success now pL hf hv,
    ?_, ?_, rfl, by decide⟩
  · simp [create_access_token, dset, JWT_EXPIRES_MIN]
  · simp [create_access_token, dset, JWT_EXPIRES_MIN, hid, hem, pyStrOpt]

theorem C7_witness :
    (∀ d0 ∈ emptyStore.user, dlookup d0 "email" ≠ some (.str "ana@example.com")) ∧
    findOne bobStore.user "email" (.str "bob@example.com") = some bobDoc ∧
    verify_password "hunter2" (getStrD bobDoc "password_hash" "") = true ∧
    dlookup bobDoc "_id" = some (.oid 0) ∧
    dlookup bobDoc "email" = some (.str "bob@example.com") ∧
    (∃ rR sR rL sL,
      register (some emptyStore) 100 5 ⟨"Ana", "ana@example.com", "pw123"⟩ = (.ok rR, some sR) ∧
      login (some bobStore) 100 ⟨"bob@example.com", "hunter2"⟩ = (.ok rL, some sL) ∧
      rR.token = jwtEncode
        [("sub", .str (pyStr (.oid emptyStore.nextOid))), ("email", .str "ana@example.com"),
         ("exp", .nat (100 + 7 * 24 * 60 * 60))] ∧
      rL.token = jwtEncode
        [("sub", .str (pyStr (.oid 0))), ("email", .str "bob@example.com"),
         ("exp", .nat (100 + 7 * 24 * 60 * 60))] ∧
      ([("sub", JValue.str (pyStr (.oid emptyStore.nextOid))), ("email", .str "ana@example.com"),
        ("exp", .nat (100 + 7 * 24 * 60 * 60))].map Prod.fst) = ["sub", "email", "exp"] ∧
      60 * JWT_EXPIRES_MIN = 7 * 24 * 60 * 60) :=
  ⟨by simp [emptyStore], by decide, by decide, by decide, by decide,
   C7_token_claims emptyStore bobStore 100 5 ⟨"Ana", "ana@example.com", "pw123"⟩
     ⟨"bob@example.com", "hunter2"⟩ bobDoc 0
     (by simp [emptyStore]) (by decide) (by decide) (by decide) (by decide)⟩

/-- C8: `verify(p, hash(p))` is true for every password `p`, and
`verify(p, hash(q))` is false for every pair of distinct strings `p ≠ q`
(for any salt the hasher draws). -/
theorem C8_hash_verify_roundtrip (salt : Nat) (p q : String) (hne : p ≠ q) :
    verify_password p (hash_password salt p) = true ∧
    verify_password p (hash_password salt q) = false :=
  ⟨verify_hash salt p, verify_hash_ne salt hne⟩

theorem C8_witness :
    ("alpha" : String) ≠ "beta" ∧
    (verify_password "alpha" (hash_password 3 "alpha") = true ∧
     verify_password "alpha" (hash_password 3 "beta") = false) :=
  ⟨by decide, C8_hash_verify_roundtrip 3 "alpha" "beta" (by decide)⟩

/-- C9: every record identifier returned to a client is a plain string — the
`_id` and token `sub` of register and login responses are the stringified
`ObjectId`, every `list_blogs` item carries a string `_id`, and the contact
response `id` is the stringified generated identifier; the store's native
identifier type (`JValue.oid`) never appears in a response. -/
theorem C9_ids_stringified (s s2 : Store) (now salt : Nat) (pR : RegisterRequest)
    (pL : LoginRequest) (d : Doc) (m : Nat)
    (hfresh : ∀ d0 ∈ s.user, dlookup d0 "email" ≠ some (.str pR.email))
    (hf : findOne s2.user "email" (.str pL.email) = some d)
    (hv : verify_password pL.password (getStrD d "password_hash" "") = true)
    (hid : dlookup d "_id" = some (.oid m)) :
    ∃ rR sR rL sL,
      register (some s) now salt pR = (.ok rR, some sR) ∧
      login (some s2) now pL = (.ok rL, some sL) ∧
      dlookup rR.user "_id" = some (.str (pyStr (.oid s.nextOid))) ∧
      rR.token = create_access_token now
        [("sub", .str (pyStr (.oid s.nextOid))), ("email", .str pR.email)] ∧
      dlookup rL.user "_id" = some (.str (pyStr (.oid m))) ∧
      rL.token = create_access_token now
        [("sub", .str (pyStr (.oid m))), ("email", (dlookup d "email").getD .null)] ∧
      (∀ (st : Store) (n3 l : Nat) (items : List Doc) (db2 : Option Store),
        list_blogs (some st) n3 l = (.ok items, db2) →
        ∀ it ∈ items, ∃ idStr, dlookup it "_id" = some (.str idStr)) ∧
      (∀ (st : Store) (n3 : Nat) (pC : ContactRequest) (r : ContactResponse)
          (db2 : Option Store),
        contact (some st) n3 pC = (.ok r, db2) → r.id = pyStr (.oid st.nextOid)) := by
  refine ⟨_, _, _, _, register_fresh now salt pR hfresh, login_success now pL hf hv,
    ?_, rfl, ?_, ?_, ?_, ?_⟩
  · rw [dlookup_dset_self]
  · rw [dlookup_dpop_ne _ (by decide), dlookup_dset_self, hid]
    rfl
  · rw [hid]
    rfl
  · intro st n3 l items db2 h
    exact list_blogs_id_str h
  · intro st n3 pC r db2 h
    rw [contact_ok h]

theorem C9_witness :
    (∀ d0 ∈ emptyStore.user, dlookup d0 "email" ≠ some (.str "ana@example.com")) ∧
    findOne bobStore.user "email" (.str "bob@example.com") = some bobDoc ∧
    verify_password "hunter2" (getStrD bobDoc "password_hash" "") = true ∧
    dlookup bobDoc "_id" = some (.oid 0) ∧
    (∃ rR sR rL sL,
      register (some emptyStore) 100 5 ⟨"Ana", "ana@example.com", "pw123"⟩ = (.ok rR, some sR) ∧
      login (some bobStore) 100 ⟨"bob@example.com", "hunter2"⟩ = (.ok rL, some sL) ∧
      dlookup rR.user "_id" = some (.str (pyStr (.oid emptyStore.nextOid))) ∧
      rR.token = create_access_token 100
        [("sub", .str (pyStr (.oid emptyStore.nextOid))), ("email", .str "ana@example.com")] ∧
      dlookup rL.user "_id" = some (.str (pyStr (.oid 0))) ∧
      rL.token = create_access_token 100
        [("sub", .str (pyStr (.oid 0))), ("email", (dlookup bobDoc "email").getD .null)] ∧
      (∀ (st : Store) (n3 l : Nat) (items : List Doc) (db2 : Option Store),
        list_blogs (some st) n3 l = (.ok items, db2) →
        ∀ it ∈ items, ∃ idStr, dlookup it "_id" = some (.str idStr)) ∧
      (∀ (st : Store) (n3 : Nat) (pC : ContactRequest) (r : ContactResponse)
          (db2 : Option Store),
        contact (some st) n3 pC = (.ok r, db2) → r.id = pyStr (.oid st.nextOid))) :=
  ⟨by simp [emptyStore], by decide, by decide, by decide,
   C9_ids_stringified emptyStore bobStore 100 5 ⟨"Ana", "ana@example.com", "pw123"⟩
     ⟨"bob@example.com", "hunter2"⟩ bobDoc 0
     (by simp [emptyStore]) (by decide) (by decide) (by decide)⟩

/-- C10: every successful `register` stores a User record with
`plan = "free"`, `is_active = true` and `avatar_url = null`, for every
request body — `RegisterRequest` carries only name, email and password, so no
client input can set or override these server-side defaults. -/
theorem C10_server_side_defaults (s : Store) (now salt : Nat) (p : RegisterRequest)
    (hfresh : ∀ d ∈ s.user, dlookup d "email" ≠ some (.str p.email)) :
    ∃ rR sR, register (some s) now salt p = (.ok rR, some sR) ∧
      ∃ stored, sR.user = s.user ++ [stored] ∧
        dlookup stored "plan" = some (.str "free") ∧
        dlookup stored "is_active" = some (.bool true) ∧
        dlookup stored "avatar_url" = some .null :=
  ⟨_, _, register_fresh now salt p hfresh,
   regUserDoc now salt p ++ [("_id", .oid s.nextOid)], rfl,
   dlookup_regStored_plan now salt s.nextOid p,
   dlookup_regStored_active now salt s.nextOid p,
   dlookup_regStored_avatar now salt s.nextOid p⟩

theorem C10_witness :
    (∀ d ∈ emptyStore.user, dlookup d "email" ≠ some (.str "ana@example.com")) ∧
    (∃ rR sR, register (some emptyStore) 100 5 ⟨"Ana", "ana@example.com", "pw123"⟩
        = (.ok rR, some sR) ∧
      ∃ stored, sR.user = emptyStore.user ++ [stored] ∧
        dlookup stored "plan" = some (.str "free") ∧
        dlookup stored "is_active" = some (.bool true) ∧
        dlookup stored "avatar_url" = some .null) :=
  ⟨by simp [emptyStore],
   C10_server_side_defaults emptyStore 100 5 ⟨"Ana", "ana@example.com", "pw123"⟩
     (by simp [emptyStore])⟩
